import Mathlib

/-!
# Verification of the Discourse publishing API client (`src/api.ts`)

Shallow embedding of the `DiscourseAPI` class from `src/api.ts` of the
obsidian-publish-to-discourse plugin.  Every method of the class performs one
or two HTTP round trips via `requestUrl({..., throw: false})` and translates
the JSON response into a typed result, possibly raising a user notification.

We model each method as a pure function from a *network environment* — the
response (or thrown exception) the network would deliver for each request the
method can issue — to the method's return value paired with a trace of
observable events: HTTP requests actually issued and notifications raised.
JavaScript truthiness (`0`, `""`, `null`/`undefined` are falsy; arrays and
objects are always truthy) is modelled explicitly.
-/

namespace Discourse

/-! ## JavaScript semantics helpers -/

/-- Model of JS `s.startsWith(p)` via the character lists of the strings. -/
def startsWithM (s p : String) : Bool :=
  p.data.isPrefixOf s.data

/-- Model of JS `s.endsWith(p)` via the character lists of the strings. -/
def endsWithM (s p : String) : Bool :=
  p.data.reverse.isPrefixOf s.data.reverse

/-- Model of `s.replace(/\/$/, '')`: the regex matches a single `'/'` at the
end of the string, so at most one trailing slash is removed. -/
def stripTrailingSlash (s : String) : String :=
  if endsWithM s "/" then String.mk s.data.dropLast else s

/-- JS `x || fallback` for an optional string `x` (absent or `""` is falsy). -/
def jsOrString (x : Option String) (fallback : String) : String :=
  match x with
  | none => fallback
  | some s => if s = "" then fallback else s

/-- JS `x || 0` for an optional number `x` (absent is falsy; `0 || 0 = 0`). -/
def jsOrZero (x : Option Int) : Int :=
  match x with
  | none => 0
  | some n => n

/-! ## Translated interface strings

`t('…')` looks up a locale string in `src/i18n.ts`, which is outside the
embedded file; each key is modelled as a distinct constant string. -/

def tPOST_ID_ERROR : String := "POST_ID_ERROR"
def tPUBLISH_FAILED : String := "PUBLISH_FAILED"
def tUNKNOWN_ERROR : String := "UNKNOWN_ERROR"
def tUPDATE_FAILED : String := "UPDATE_FAILED"
def tMISSING_SETTINGS : String := "MISSING_SETTINGS"
def tAPI_TEST_SUCCESS : String := "API_TEST_SUCCESS"
def tAPI_KEY_INVALID : String := "API_KEY_INVALID"

/-! ## Network environment model -/

/-- A JS exception thrown by `requestUrl` (network-level failure) or by a
`response.json` getter.  `message` is the `.message` property (possibly
absent or empty, both falsy); `asString` is its string interpolation
`` `${error}` ``. -/
structure JsError where
  message : Option String
  asString : String
  deriving Repr, DecidableEq

/-- An HTTP response as seen through `requestUrl({..., throw: false})`.
`jsonR` models the `response.json` getter: `.error m` means the getter throws
(unparseable body), `.ok none` means the parsed body is `null`/falsy, and
`.ok (some b)` a parsed object of shape `β`. -/
structure HttpResponse (β : Type) where
  status : Nat
  jsonR : Except JsError (Option β)
  deriving Repr

/-- What the network delivers for one request: either a thrown exception from
`requestUrl` itself, or a response object. -/
def NetResult (β : Type) : Type := Except JsError (HttpResponse β)

/-- The HTTP requests the client can issue. -/
inductive NetCall where
  | postUploads
  | postPosts
  | putPost
  | putTopic
  | getCategories
  | getTags
  | getSite
  | getTopic
  deriving Repr, DecidableEq

/-- Observable events of one method invocation: HTTP requests issued and
user-visible notifications (`new NotifyUser(...).open()`). -/
inductive Event where
  | call (c : NetCall)
  | notify (msg : String)
  deriving Repr, DecidableEq

/-- Plugin settings as read by `api.ts` (declared in `src/config.ts`). -/
structure DiscourseSyncSettings where
  baseUrl : String
  userApiKey : String
  deriving Repr, DecidableEq

/-! ## uploadImage (`src/api.ts` lines 18–83)

Only the response handling after `requestUrl` is modelled: the multipart body
construction (lines 20–44) writes binary buffers and is not consulted by any
claim. -/

/-- Body shape read from a 200 response of `POST /uploads.json`. -/
structure UploadBody where
  short_url : Option String
  url : Option String
  deriving Repr, DecidableEq

/-- Return value of `uploadImage` on the success path. -/
structure UploadResult where
  shortUrl : Option String
  fullUrl : Option String
  deriving Repr, DecidableEq

/-- Lines 56–69: derivation of `fullUrl` from the response's `url` field and
the configured `baseUrl`.  `if (jsonResponse.url)` is a truthiness test, so an
absent or empty `url` yields no `fullUrl`. -/
def deriveFullUrl (baseUrl : String) (urlField : Option String) : Option String :=
  match urlField with
  | none => none
  | some u =>
    if u = "" then none
    else if startsWithM u "http://" || startsWithM u "https://" then some u
    else
      let base := stripTrailingSlash baseUrl
      let urlPath := if startsWithM u "/" then u else "/" ++ u
      some (base ++ urlPath)

/-- Model of `uploadImage`, from the `requestUrl` call onward. -/
def uploadImage (settings : DiscourseSyncSettings) (env : NetResult UploadBody) :
    Option UploadResult × List Event :=
  match env with
  | .error e =>
    (none, [.call .postUploads, .notify ("Exception while uploading image: " ++ e.asString)])
  | .ok r =>
    if r.status = 200 then
      match r.jsonR with
      | .error e =>
        -- `response.json` throws inside the `try`; caught by the same catch
        (none, [.call .postUploads, .notify ("Exception while uploading image: " ++ e.asString)])
      | .ok none =>
        -- `jsonResponse.url` / `.short_url` on null throw a TypeError, caught below
        (none, [.call .postUploads, .notify ("Exception while uploading image: TypeError")])
      | .ok (some b) =>
        (some { shortUrl := b.short_url, fullUrl := deriveFullUrl settings.baseUrl b.url },
         [.call .postUploads])
    else
      (none, [.call .postUploads, .notify ("Error uploading image: " ++ toString r.status)])

/-! ## createPost (`src/api.ts` lines 86–154) -/

/-- Body shape read from a response of `POST /posts.json`: `id`/`topic_id` on
the 200 path and `errors`/`error` on the failure path. -/
structure PostsBody where
  id : Option Int
  topic_id : Option Int
  errors : Option (List String)
  error : Option String
  deriving Repr, DecidableEq

/-- Return value of `createPost`. -/
structure CreatePostResult where
  success : Bool
  postId : Option Int
  topicId : Option Int
  error : Option String
  deriving Repr, DecidableEq

/-- Lines 123–146: error-message extraction for a non-200 `createPost`
response.  `errorResponse.errors && errorResponse.errors.length > 0` (an array
is always truthy, so only the length matters), then truthy `errorResponse.error`
(non-empty string), then the generic message.  An unparseable body, or the
TypeError from accessing `.errors` on a null body, is caught by the inner
`catch` and also yields the generic message. -/
def extractPostError (status : Nat) (jsonR : Except JsError (Option PostsBody)) : String :=
  match jsonR with
  | .error _ => tPUBLISH_FAILED ++ " (" ++ toString status ++ ")"
  | .ok none => tPUBLISH_FAILED ++ " (" ++ toString status ++ ")"
  | .ok (some b) =>
    match b.errors with
    | some es =>
      if es.length > 0 then String.intercalate "\n" es
      else
        match b.error with
        | some s => if s = "" then tPUBLISH_FAILED ++ " (" ++ toString status ++ ")" else s
        | none => tPUBLISH_FAILED ++ " (" ++ toString status ++ ")"
    | none =>
      match b.error with
      | some s => if s = "" then tPUBLISH_FAILED ++ " (" ++ toString status ++ ")" else s
      | none => tPUBLISH_FAILED ++ " (" ++ toString status ++ ")"

/-- Truthiness of `responseData.id` for a numeric field: present and nonzero. -/
def idTruthy (x : Option Int) : Bool :=
  match x with
  | none => false
  | some n => n ≠ 0

/-- Model of `createPost`, from the `requestUrl` call onward. -/
def createPost (env : NetResult PostsBody) : CreatePostResult × List Event :=
  match env with
  | .error e =>
    ({ success := false, postId := none, topicId := none,
       error := some (tPUBLISH_FAILED ++ ": " ++ jsOrString e.message tUNKNOWN_ERROR) },
     [.call .postPosts])
  | .ok r =>
    if r.status = 200 then
      match r.jsonR with
      | .error e =>
        -- `response.json` throws inside the outer `try`; the outer catch applies
        ({ success := false, postId := none, topicId := none,
           error := some (tPUBLISH_FAILED ++ ": " ++ jsOrString e.message tUNKNOWN_ERROR) },
         [.call .postPosts])
      | .ok none =>
        -- `responseData` falsy: the `if (responseData && responseData.id)` test fails
        ({ success := false, postId := none, topicId := none,
           error := some tPOST_ID_ERROR }, [.call .postPosts])
      | .ok (some b) =>
        if idTruthy b.id then
          ({ success := true, postId := b.id, topicId := b.topic_id, error := none },
           [.call .postPosts])
        else
          ({ success := false, postId := none, topicId := none,
             error := some tPOST_ID_ERROR }, [.call .postPosts])
    else
      ({ success := false, postId := none, topicId := none,
         error := some (extractPostError r.status r.jsonR) }, [.call .postPosts])

/-! ## updatePost (`src/api.ts` lines 157–234) -/

/-- Body shape read from a response of `PUT /t/{topicId}` (failure fields
only; the success path reads no field). -/
structure TopicPutBody where
  errors : Option (List String)
  error : Option String
  deriving Repr, DecidableEq

/-- Return value of `updatePost`. -/
structure UpdateResult where
  success : Bool
  error : Option String
  deriving Repr, DecidableEq

/-- Network environment of `updatePost`: a result for each of the two PUTs it
may issue.  The first response's body is never read by the code, hence `Unit`. -/
structure UpdateEnv where
  postResp : NetResult Unit
  topicResp : NetResult TopicPutBody

/-- Lines 203–226: error-message extraction for a non-200 topic PUT, same
priority order as `createPost` but with the `UPDATE_FAILED` message. -/
def extractTopicError (status : Nat) (jsonR : Except JsError (Option TopicPutBody)) : String :=
  match jsonR with
  | .error _ => tUPDATE_FAILED ++ " (" ++ toString status ++ ")"
  | .ok none => tUPDATE_FAILED ++ " (" ++ toString status ++ ")"
  | .ok (some b) =>
    match b.errors with
    | some es =>
      if es.length > 0 then String.intercalate "\n" es
      else
        match b.error with
        | some s => if s = "" then tUPDATE_FAILED ++ " (" ++ toString status ++ ")" else s
        | none => tUPDATE_FAILED ++ " (" ++ toString status ++ ")"
    | none =>
      match b.error with
      | some s => if s = "" then tUPDATE_FAILED ++ " (" ++ toString status ++ ")" else s
      | none => tUPDATE_FAILED ++ " (" ++ toString status ++ ")"

/-- Model of `updatePost`: first a PUT of the post body; only if it returns 200 is the
PUT of the topic metadata (title, category, tags) issued. -/
def updatePost (env : UpdateEnv) : UpdateResult × List Event :=
  match env.postResp with
  | .error e =>
    ({ success := false,
       error := some (tUPDATE_FAILED ++ ": " ++ jsOrString e.message tUNKNOWN_ERROR) },
     [.call .putPost])
  | .ok r1 =>
    if r1.status ≠ 200 then
      ({ success := false,
         error := some (tUPDATE_FAILED ++ " (" ++ toString r1.status ++ ")") },
       [.call .putPost])
    else
      match env.topicResp with
      | .error e =>
        ({ success := false,
           error := some (tUPDATE_FAILED ++ ": " ++ jsOrString e.message tUNKNOWN_ERROR) },
         [.call .putPost, .call .putTopic])
      | .ok r2 =>
        if r2.status = 200 then
          ({ success := true, error := none }, [.call .putPost, .call .putTopic])
        else
          ({ success := false, error := some (extractTopicError r2.status r2.jsonR) },
           [.call .putPost, .call .putTopic])

/-! ## fetchCategories (`src/api.ts` lines 237–283) -/

/-- One subcategory record as read from the response. -/
structure Subcategory where
  id : Int
  name : String
  deriving Repr, DecidableEq

/-- One category record: `subcategory_list` may be absent (falsy). -/
structure Category where
  id : Int
  name : String
  subcategory_list : Option (List Subcategory)
  deriving Repr, DecidableEq

/-- Body shape of `GET /categories.json`: the code tests the truthiness chain
`data && data.category_list && data.category_list.categories`, modelled as
nested options. -/
structure CategoriesBody where
  category_list : Option (Option (List Category))
  deriving Repr, DecidableEq

/-- One entry of the flattened output list. -/
structure CategoryOut where
  id : Int
  name : String
  deriving Repr, DecidableEq

/-- One iteration of the `forEach` loop at lines 256–271: push the category,
then push each of its subcategories with the synthesized `Parent > Child`
name (skipped when `subcategory_list` is falsy). -/
def flattenStep (acc : List CategoryOut) (c : Category) : List CategoryOut :=
  let acc := acc ++ [{ id := c.id, name := c.name }]
  match c.subcategory_list with
  | some subs =>
    acc ++ subs.map (fun s => { id := s.id, name := c.name ++ " > " ++ s.name })
  | none => acc

/-- Lines 253–271: the `forEach` loop pushing into the `categories` array. -/
def flattenCategories (cs : List Category) : List CategoryOut :=
  cs.foldl flattenStep []

/-- The per-category contribution to the flattened output: the category
itself, immediately followed by its subcategories with synthesized names. -/
def catEntries (c : Category) : List CategoryOut :=
  { id := c.id, name := c.name } ::
    (c.subcategory_list.getD []).map
      (fun s => { id := s.id, name := c.name ++ " > " ++ s.name })

/-- Model of `fetchCategories`, from the `requestUrl` call onward. -/
def fetchCategories (env : NetResult CategoriesBody) : List CategoryOut × List Event :=
  match env with
  | .error e =>
    ([], [.call .getCategories, .notify ("Exception while fetching categories: " ++ e.asString)])
  | .ok r =>
    if r.status = 200 then
      match r.jsonR with
      | .error e =>
        ([], [.call .getCategories,
              .notify ("Exception while fetching categories: " ++ e.asString)])
      | .ok none => ([], [.call .getCategories])
      | .ok (some b) =>
        match b.category_list with
        | some (some cs) => (flattenCategories cs, [.call .getCategories])
        | _ => ([], [.call .getCategories])
    else
      ([], [.call .getCategories, .notify ("Error fetching categories: " ++ toString r.status)])

/-! ## checkCanCreateTags (`src/api.ts` lines 355–380) -/

/-- Body shape of `GET /site.json` as read by `checkCanCreateTags` and
`testApiKey`: only the `can_create_tag` field is consulted. -/
structure SiteBody where
  can_create_tag : Option Bool
  deriving Repr, DecidableEq

/-- Model of `checkCanCreateTags`: returns `data.can_create_tag` when the response is
200 and the field is truthy, `false` on every other path, with no
notification ever raised. -/
def checkCanCreateTags (env : NetResult SiteBody) : Bool × List Event :=
  match env with
  | .error _ => (false, [.call .getSite])
  | .ok r =>
    if r.status = 200 then
      match r.jsonR with
      | .error _ =>
        -- `response.json` throws; the catch returns false silently
        (false, [.call .getSite])
      | .ok none => (false, [.call .getSite])
      | .ok (some b) =>
        match b.can_create_tag with
        | some true => (true, [.call .getSite])
        | _ => (false, [.call .getSite])
    else
      (false, [.call .getSite])

/-! ## fetchTags (`src/api.ts` lines 286–352) -/

/-- One tag record as read from the response; `count` may be absent
(`tag.count || 0`). -/
structure TagIn where
  name : String
  count : Option Int
  deriving Repr, DecidableEq

/-- One tag group inside `extras.tag_groups`; its `tags` list may be absent. -/
structure TagGroup where
  tags : Option (List TagIn)
  deriving Repr, DecidableEq

/-- Body shape of `GET /tags.json`: top-level `tags` plus
`extras.tag_groups`, each an optional (possibly falsy) field. -/
structure TagsBody where
  tags : Option (List TagIn)
  extras : Option (Option (List TagGroup))
  deriving Repr, DecidableEq

/-- One entry of the `fetchTags` output. -/
structure TagOut where
  name : String
  canCreate : Bool
  deriving Repr, DecidableEq

/-- The `allTags` insertion-ordered `Map<string, …>`, modelled as an
association list of name/count pairs in insertion order. -/
def TagMap : Type := List (String × Int)

/-- Lookup in the insertion-ordered map (`Map.get`). -/
def tagMapGet : List (String × Int) → String → Option Int
  | [], _ => none
  | (k, v) :: m, k' => if k' = k then some v else tagMapGet m k'

/-- Model of `Map.set`: an existing key is updated in place (insertion order kept); a
new key is appended at the end. -/
def tagMapSet (m : List (String × Int)) (k : String) (v : Int) : List (String × Int) :=
  match tagMapGet m k with
  | some _ => m.map (fun p => if p.1 = k then (k, v) else p)
  | none => m ++ [(k, v)]

/-- One iteration of lines 311–313: `allTags.set(tag.name, {name, count || 0})`. -/
def addTopTag (m : List (String × Int)) (t : TagIn) : List (String × Int) :=
  tagMapSet m t.name (jsOrZero t.count)

/-- Lines 311–313: `data.tags.forEach(tag => allTags.set(tag.name, {…}))`. -/
def addTopLevelTags (m : List (String × Int)) (tl : List TagIn) : List (String × Int) :=
  tl.foldl addTopTag m

/-- Lines 319–327: merging one tag from a tag group — an existing entry keeps
the larger count, a new name is inserted. -/
def addGroupTag (m : List (String × Int)) (t : TagIn) : List (String × Int) :=
  match tagMapGet m t.name with
  | some c => tagMapSet m t.name (max c (jsOrZero t.count))
  | none => m ++ [(t.name, jsOrZero t.count)]

/-- One iteration of the loop over `data.extras.tag_groups`: groups with a
falsy `tags` field are skipped (`if (group.tags)`). -/
def addGroup (m : List (String × Int)) (g : TagGroup) : List (String × Int) :=
  match g.tags with
  | some ts => ts.foldl addGroupTag m
  | none => m

/-- Lines 316–330: the loop over `data.extras.tag_groups`. -/
def addTagGroups (m : List (String × Int)) (groups : List TagGroup) : List (String × Int) :=
  groups.foldl addGroup m

/-- The full merged `allTags` map built from a response body. -/
def mergeTags (tl : List TagIn) (groups : List TagGroup) : List (String × Int) :=
  addTagGroups (addTopLevelTags [] tl) groups

/-- Lines 333–338: `Array.from(allTags.values()).sort((a, b) => b.count - a.count)`
— a stable sort descending by count — then mapping to the output shape. -/
def sortAndLabel (m : List (String × Int)) (canCreate : Bool) : List TagOut :=
  (m.mergeSort (fun a b => decide (b.2 ≤ a.2))).map
    (fun p => { name := p.1, canCreate := canCreate })

/-- Lines 316–330 guard: the groups are processed only when
`data.extras && data.extras.tag_groups` is truthy; otherwise no group tag is
merged, which is the same as merging an empty group list. -/
def extrasGroups (b : TagsBody) : List TagGroup :=
  match b.extras with
  | some (some gs) => gs
  | _ => []

/-- Network environment of `fetchTags`: the tags response plus the site
response consumed by the nested `checkCanCreateTags()` call. -/
structure FetchTagsEnv where
  tagsResp : NetResult TagsBody
  siteResp : NetResult SiteBody

/-- Model of `fetchTags`, from the `requestUrl` call onward.  `checkCanCreateTags` is
invoked only inside the `if (data && data.tags)` branch. -/
def fetchTags (env : FetchTagsEnv) : List TagOut × List Event :=
  match env.tagsResp with
  | .error e =>
    ([], [.call .getTags, .notify ("Exception while fetching tags: " ++ e.asString)])
  | .ok r =>
    if r.status = 200 then
      match r.jsonR with
      | .error e =>
        ([], [.call .getTags, .notify ("Exception while fetching tags: " ++ e.asString)])
      | .ok none => ([], [.call .getTags])
      | .ok (some b) =>
        match b.tags with
        | none => ([], [.call .getTags])
        | some tl =>
          let probe := checkCanCreateTags env.siteResp
          (sortAndLabel (mergeTags tl (extrasGroups b)) probe.1,
           [.call .getTags] ++ probe.2)
    else
      ([], [.call .getTags, .notify ("Error fetching tags: " ++ toString r.status)])

/-! ## testApiKey (`src/api.ts` lines 383–429) -/

/-- Return value of `testApiKey`. -/
structure TestApiKeyResult where
  success : Bool
  message : String
  deriving Repr, DecidableEq

/-- Model of `testApiKey`: missing settings short-circuit before any request, then a
GET of `/site.json`. -/
def testApiKey (settings : DiscourseSyncSettings) (env : NetResult SiteBody) :
    TestApiKeyResult × List Event :=
  if settings.baseUrl = "" ∨ settings.userApiKey = "" then
    ({ success := false, message := tMISSING_SETTINGS }, [])
  else
    match env with
    | .error e =>
      ({ success := false,
         message := tAPI_KEY_INVALID ++ ": " ++ jsOrString e.message tUNKNOWN_ERROR },
       [.call .getSite])
    | .ok r =>
      if r.status = 200 then
        match r.jsonR with
        | .error e =>
          ({ success := false,
             message := tAPI_KEY_INVALID ++ ": " ++ jsOrString e.message tUNKNOWN_ERROR },
           [.call .getSite])
        | .ok none => ({ success := false, message := tAPI_KEY_INVALID }, [.call .getSite])
        | .ok (some _) => ({ success := true, message := tAPI_TEST_SUCCESS }, [.call .getSite])
      else
        ({ success := false, message := tAPI_KEY_INVALID ++ " (" ++ toString r.status ++ ")" },
         [.call .getSite])

/-! ## fetchTopicInfo (`src/api.ts` lines 432–459) -/

/-- Body shape of `GET /t/{topicId}.json` as read by `fetchTopicInfo`. -/
structure TopicBody where
  tags : Option (List String)
  category_id : Option Int
  deriving Repr, DecidableEq

/-- Return value of `fetchTopicInfo`. -/
structure TopicInfo where
  tags : List String
  categoryId : Option Int
  deriving Repr, DecidableEq

/-- Model of `fetchTopicInfo`: on 200, `data?.tags || []` (an array is truthy even when
empty) and `data?.category_id`; on non-200 the `{tags: []}` sentinel with no
notification; on exception the sentinel plus a notification. -/
def fetchTopicInfo (env : NetResult TopicBody) : TopicInfo × List Event :=
  match env with
  | .error e =>
    ({ tags := [], categoryId := none },
     [.call .getTopic, .notify ("Exception while fetching topic info: " ++ e.asString)])
  | .ok r =>
    if r.status = 200 then
      match r.jsonR with
      | .error e =>
        ({ tags := [], categoryId := none },
         [.call .getTopic, .notify ("Exception while fetching topic info: " ++ e.asString)])
      | .ok none => ({ tags := [], categoryId := none }, [.call .getTopic])
      | .ok (some b) =>
        ({ tags := b.tags.getD [], categoryId := b.category_id }, [.call .getTopic])
    else
      ({ tags := [], categoryId := none }, [.call .getTopic])

/-! ## Claim C1: updatePost short-circuits on a failed body update -/

/-- C1: for every invocation of `updatePost`, if the first PUT (post body
update) returns an HTTP status other than 200, the second PUT (topic metadata
update) is never issued — the event trace contains only the first PUT, so the
topic's title, category and tags are untouched — and the result is
`{success: false}` with the `UPDATE_FAILED (status)` error message. -/
theorem updatePost_shortCircuit (env : UpdateEnv) (r1 : HttpResponse Unit)
    (h : env.postResp = Except.ok r1) (hs : r1.status ≠ 200) :
    updatePost env =
      ({ success := false,
         error := some (tUPDATE_FAILED ++ " (" ++ toString r1.status ++ ")") },
       [Event.call NetCall.putPost]) := by
  unfold updatePost
  rw [h]
  simp [hs]

/-- Witness for C1 at a concrete environment whose first PUT returns 403. -/
theorem updatePost_shortCircuit_witness :
    updatePost
      { postResp := Except.ok { status := 403, jsonR := Except.ok none },
        topicResp := Except.ok { status := 200, jsonR := Except.ok none } } =
      ({ success := false,
         error := some (tUPDATE_FAILED ++ " (" ++ toString (403 : Nat) ++ ")") },
       [Event.call NetCall.putPost]) :=
  updatePost_shortCircuit _ { status := 403, jsonR := Except.ok none } rfl (by decide)

/-! ## Claim C7: testApiKey with missing settings issues no request -/

/-- C7: whenever `baseUrl` or the API key is empty (JS-falsy), `testApiKey`
returns the missing-settings failure and the event trace is empty — no HTTP
request is issued. -/
theorem testApiKey_missingSettings (settings : DiscourseSyncSettings)
    (env : NetResult SiteBody)
    (h : settings.baseUrl = "" ∨ settings.userApiKey = "") :
    testApiKey settings env = ({ success := false, message := tMISSING_SETTINGS }, []) := by
  unfold testApiKey
  rw [if_pos h]

/-- Witness for C7 at a concrete settings object with an empty base URL. -/
theorem testApiKey_missingSettings_witness :
    testApiKey { baseUrl := "", userApiKey := "k" }
        (Except.ok { status := 200, jsonR := Except.ok (some { can_create_tag := some true }) }) =
      ({ success := false, message := tMISSING_SETTINGS }, []) :=
  testApiKey_missingSettings _ _ (Or.inl rfl)

/-! ## Claim C8: checkCanCreateTags is a silent capability probe -/

/-- C8: `checkCanCreateTags` raises no notification on any outcome, and it
returns `true` exactly when the response is a 200 whose parsed body carries a
truthy `can_create_tag`; every other outcome (non-200, thrown exception, null
or unparseable body, missing or falsy field) resolves to `false`. -/
theorem checkCanCreateTags_silentFalse (env : NetResult SiteBody) :
    (∀ m, Event.notify m ∉ (checkCanCreateTags env).2) ∧
    ((checkCanCreateTags env).1 = true ↔
      ∃ r b, env = Except.ok r ∧ r.status = 200 ∧
        r.jsonR = Except.ok (some b) ∧ b.can_create_tag = some true) := by
  constructor
  · intro m
    match env with
    | .error e => simp [checkCanCreateTags]
    | .ok r =>
      by_cases hs : r.status = 200
      · match hj : r.jsonR with
        | .error e => simp [checkCanCreateTags, hs, hj]
        | .ok none => simp [checkCanCreateTags, hs, hj]
        | .ok (some b) =>
          match hc : b.can_create_tag with
          | some true => simp [checkCanCreateTags, hs, hj, hc]
          | some false => simp [checkCanCreateTags, hs, hj, hc]
          | none => simp [checkCanCreateTags, hs, hj, hc]
      · simp [checkCanCreateTags, hs]
  · constructor
    · intro htrue
      match henv : env with
      | .error e => simp [checkCanCreateTags] at htrue
      | .ok r =>
        by_cases hs : r.status = 200
        · match hj : r.jsonR with
          | .error e => simp [checkCanCreateTags, hs, hj] at htrue
          | .ok none => simp [checkCanCreateTags, hs, hj] at htrue
          | .ok (some b) =>
            match hc : b.can_create_tag with
            | some true => exact ⟨r, b, rfl, hs, hj, hc⟩
            | some false => simp [checkCanCreateTags, hs, hj, hc] at htrue
            | none => simp [checkCanCreateTags, hs, hj, hc] at htrue
        · simp [checkCanCreateTags, hs] at htrue
    · rintro ⟨r, b, rfl, hs, hj, hc⟩
      simp [checkCanCreateTags, hs, hj, hc]

/-! ## Claim C9: fetchTags without a truthy tags field never probes site.json -/

/-- C9: on a 200 tags response whose body is null or lacks a truthy top-level
`tags` field, `fetchTags` returns the empty list and its trace is the tags GET
alone — in particular `checkCanCreateTags` (the `GET /site.json` probe) is
never invoked. -/
theorem fetchTags_noTagsField_noProbe (env : FetchTagsEnv) (r : HttpResponse TagsBody)
    (h : env.tagsResp = Except.ok r) (hs : r.status = 200)
    (hb : r.jsonR = Except.ok none ∨
      ∃ b, r.jsonR = Except.ok (some b) ∧ b.tags = none) :
    fetchTags env = ([], [Event.call NetCall.getTags]) := by
  unfold fetchTags
  rw [h]
  rcases hb with hb | ⟨b, hb, ht⟩
  · simp [hs, hb]
  · simp [hs, hb, ht]

/-- Witness for C9 at a concrete 200 response whose body has no `tags` field. -/
theorem fetchTags_noTagsField_noProbe_witness :
    fetchTags
      { tagsResp := Except.ok
          { status := 200, jsonR := Except.ok (some { tags := none, extras := none }) },
        siteResp := Except.ok { status := 200, jsonR := Except.ok none } } =
      ([], [Event.call NetCall.getTags]) :=
  fetchTags_noTagsField_noProbe _
    { status := 200, jsonR := Except.ok (some { tags := none, extras := none }) }
    rfl rfl (Or.inr ⟨{ tags := none, extras := none }, rfl, rfl⟩)

/-! ## Claim C3: uploadImage full-URL derivation -/

/-- A string starting with `"/"` is a slash followed by its tail. -/
theorem startsWithM_slash_data (u : String) (h : startsWithM u "/" = true) :
    ∃ t, u.data = '/' :: t := by
  unfold startsWithM at h
  have hslash : ("/" : String).data = ['/'] := rfl
  rw [hslash] at h
  match hd : u.data with
  | [] => rw [hd] at h; simp [List.isPrefixOf] at h
  | c :: t =>
    rw [hd] at h
    simp [List.isPrefixOf] at h
    exact ⟨t, by rw [← h]⟩

/-- If a string starting with one slash does not start with two, its tail
does not start with a slash. -/
theorem startsWithM_after_slash (t : List Char) (u : String) (ht : u.data = '/' :: t)
    (h : startsWithM u "//" = false) : startsWithM (String.mk t) "/" = false := by
  unfold startsWithM at h ⊢
  have h2 : ("//" : String).data = ['/', '/'] := rfl
  have h1 : ("/" : String).data = ['/'] := rfl
  rw [h2, ht] at h
  rw [h1]
  simpa [List.isPrefixOf] using h

/-- The relative branch of the `fullUrl` derivation: the result is the
base URL with at most one trailing slash stripped, concatenated with the
server path prefixed by a slash when it lacks one. -/
theorem deriveFullUrl_relative (baseUrl u : String) (hu : u ≠ "")
    (habs : (startsWithM u "http://" || startsWithM u "https://") = false) :
    deriveFullUrl baseUrl (some u) =
      some (stripTrailingSlash baseUrl ++ (if startsWithM u "/" then u else "/" ++ u)) := by
  simp [deriveFullUrl, hu, habs]

/-- C3 counterexample: with `baseUrl = "http://x//"` (two trailing slashes)
and relative server path `"p"`, the regex `replace(/\/$/, '')` strips only
one slash, so the derived URL is `"http://x//p"` — the base used in the
concatenation still ends with `'/'` and the join point carries two slashes,
refuting "the join point contains exactly one slash regardless of whether
baseUrl ends with '/'" (and the all-trailing-slashes-stripped reading, which
would predict `"http://x/p"`). -/
theorem deriveFullUrl_doubleSlash_counterexample :
    deriveFullUrl "http://x//" (some "p") = some "http://x//p" ∧
    deriveFullUrl "http://x//" (some "p") =
      some (stripTrailingSlash "http://x//" ++ "/p") ∧
    endsWithM (stripTrailingSlash "http://x//") "/" = true ∧
    ("http://x//p" : String) ≠ "http://x/p" := by
  refine ⟨?_, ?_, ?_, ?_⟩
  · decide
  · decide
  · decide
  · decide

/-- C3 (amended): on a 200 upload response with a truthy `url` field, if the
url starts with `http://` or `https://` the derived `fullUrl` is that url
verbatim; otherwise it is the base URL with a single trailing slash stripped,
concatenated with the url prefixed by a leading slash when it lacks one — and
whenever the stripped base does not itself still end with `'/'` (i.e. the
configured base URL does not end with a double slash) and the url does not
start with `"//"`, the join point contains exactly one slash: the result
splits as `base ++ "/" ++ rest` with `rest` not starting with a slash. -/
theorem deriveFullUrl_join (baseUrl u : String) (hu : u ≠ "") :
    ((startsWithM u "http://" || startsWithM u "https://") = true →
      deriveFullUrl baseUrl (some u) = some u) ∧
    ((startsWithM u "http://" || startsWithM u "https://") = false →
      deriveFullUrl baseUrl (some u) =
        some (stripTrailingSlash baseUrl ++ (if startsWithM u "/" then u else "/" ++ u)) ∧
      (endsWithM (stripTrailingSlash baseUrl) "/" = false →
        startsWithM u "//" = false →
        ∃ p, deriveFullUrl baseUrl (some u) =
            some (stripTrailingSlash baseUrl ++ "/" ++ p) ∧
          startsWithM p "/" = false)) := by
  constructor
  · intro h
    simp [deriveFullUrl, hu, h]
  · intro habs
    refine ⟨deriveFullUrl_relative baseUrl u hu habs, ?_⟩
    intro hbase hdd
    cases hsl : startsWithM u "/" with
    | false =>
      refine ⟨u, ?_, hsl⟩
      rw [deriveFullUrl_relative baseUrl u hu habs]
      simp [hsl, String.append_assoc]
    | true =>
      obtain ⟨t, ht⟩ := startsWithM_slash_data u hsl
      refine ⟨String.mk t, ?_, startsWithM_after_slash t u ht hdd⟩
      rw [deriveFullUrl_relative baseUrl u hu habs]
      simp only [hsl, if_true]
      congr 1
      apply String.ext
      simp [String.data_append, ht]

/-- Witness for C3 (amended) at concrete inputs: an absolute url is used
verbatim, and a relative url joins a slash-terminated base with exactly one
slash. -/
theorem deriveFullUrl_join_witness :
    deriveFullUrl "https://forum.example/" (some "https://cdn.example/img.png") =
      some "https://cdn.example/img.png" ∧
    deriveFullUrl "https://forum.example/" (some "uploads/img.png") =
      some (stripTrailingSlash "https://forum.example/" ++ "/" ++ "uploads/img.png") :=
  ⟨(deriveFullUrl_join "https://forum.example/" "https://cdn.example/img.png"
      (by decide)).1 (by decide),
   by
    obtain ⟨p, hp, hps⟩ :=
      ((deriveFullUrl_join "https://forum.example/" "uploads/img.png" (by decide)).2
        (by decide)).2 (by decide) (by decide)
    rw [hp]
    have : p = "uploads/img.png" := by
      have h := ((deriveFullUrl_join "https://forum.example/" "uploads/img.png"
        (by decide)).2 (by decide)).1
      rw [h] at hp
      simp only [Option.some_inj] at hp
      have hd := congrArg String.data hp
      simp only [String.data_append] at hd
      have : startsWithM "uploads/img.png" "/" = false := by decide
      rw [if_neg (by simp [this])] at hd
      apply String.ext
      have := List.append_cancel_left hd
      exact (List.append_cancel_left this).symm
    rw [this]⟩

/-! ## Claim C2: createPost success condition -/

/-- C2 counterexample: a 200 response whose body is `{id: 0, topic_id: 7}`
*does* contain a numeric `id`, yet `createPost` returns `{success: false}`
with the malformed-success error — `if (responseData && responseData.id)` is a
JS truthiness test, and the number `0` is falsy.  So "success iff HTTP 200 and
the body contains a numeric id" is refuted at this input. -/
theorem createPost_zeroId_counterexample :
    (createPost (Except.ok
        { status := 200,
          jsonR := Except.ok (some
            { id := some 0, topic_id := some 7, errors := none, error := none }) })).1 =
      { success := false, postId := none, topicId := none, error := some tPOST_ID_ERROR } := by
  decide

/-- C2 (amended): `createPost` returns `{success: true}` (with `postId` and
`topicId` taken from the body's `id` and `topic_id`) if and only if the HTTP
status is 200 and the response body contains a *truthy (nonzero)* numeric
`id`; a 200 response whose parsed body is null or lacks such an id yields
`{success: false}` with the distinct malformed-success error (a string that is
not any publish-failed message) rather than a crash. -/
theorem createPost_success_iff (env : NetResult PostsBody) :
    ((createPost env).1.success = true ↔
      ∃ r b, env = Except.ok r ∧ r.status = 200 ∧
        r.jsonR = Except.ok (some b) ∧ idTruthy b.id = true) ∧
    (∀ r b, env = Except.ok r → r.status = 200 → r.jsonR = Except.ok (some b) →
      idTruthy b.id = true →
      (createPost env).1 =
        { success := true, postId := b.id, topicId := b.topic_id, error := none }) ∧
    (∀ r, env = Except.ok r → r.status = 200 →
      (r.jsonR = Except.ok none ∨ ∃ b, r.jsonR = Except.ok (some b) ∧ idTruthy b.id = false) →
      (createPost env).1 =
        { success := false, postId := none, topicId := none, error := some tPOST_ID_ERROR }) ∧
    (∀ s, tPOST_ID_ERROR ≠ tPUBLISH_FAILED ++ s) := by
  refine ⟨⟨?_, ?_⟩, ?_, ?_, ?_⟩
  · intro htrue
    match henv : env with
    | .error e => simp [createPost] at htrue
    | .ok r =>
      by_cases hs : r.status = 200
      · match hj : r.jsonR with
        | .error e => simp [createPost, hs, hj] at htrue
        | .ok none => simp [createPost, hs, hj] at htrue
        | .ok (some b) =>
          cases hid : idTruthy b.id with
          | true => exact ⟨r, b, rfl, hs, hj, hid⟩
          | false => simp [createPost, hs, hj, hid] at htrue
      · simp [createPost, hs] at htrue
  · rintro ⟨r, b, rfl, hs, hj, hid⟩
    simp [createPost, hs, hj, hid]
  · rintro r b rfl hs hj hid
    simp [createPost, hs, hj, hid]
  · rintro r rfl hs (hj | ⟨b, hj, hid⟩)
    · simp [createPost, hs, hj]
    · simp [createPost, hs, hj, hid]
  · intro s h
    have hlen := congrArg String.length h
    rw [String.length_append] at hlen
    have h1 : String.length tPOST_ID_ERROR = 13 := by decide
    have h2 : String.length tPUBLISH_FAILED = 14 := by decide
    rw [h1, h2] at hlen
    omega

/-- Witness for C2 (amended) at concrete inputs: a 200 with a nonzero id
succeeds with the ids, and a 200 with a null body fails with the
malformed-success error. -/
theorem createPost_success_iff_witness :
    (createPost (Except.ok
        { status := 200,
          jsonR := Except.ok (some
            { id := some 42, topic_id := some 7, errors := none, error := none }) })).1 =
      { success := true, postId := some 42, topicId := some 7, error := none } ∧
    (createPost (Except.ok { status := 200, jsonR := Except.ok none })).1 =
      { success := false, postId := none, topicId := none, error := some tPOST_ID_ERROR } :=
  ⟨(createPost_success_iff (Except.ok
      { status := 200,
        jsonR := Except.ok (some
          { id := some 42, topic_id := some 7, errors := none, error := none }) })).2.1
      _ _ rfl rfl rfl (by decide),
   (createPost_success_iff (Except.ok
      { status := 200, jsonR := Except.ok none })).2.2.1 _ rfl rfl (Or.inl rfl)⟩

/-! ## Claim C6: createPost error-message extraction -/

/-- C6 counterexample: a 500 response whose body is `{error: ""}` *does* have
an `error` string, yet the returned message is the generic publish-failed
message, not that string — `if (errorResponse.error)` is a JS truthiness test
and the empty string is falsy.  So "if the body has an error string, that
string is used" is refuted at this input. -/
theorem createPost_emptyErrorString_counterexample :
    (createPost (Except.ok
        { status := 500,
          jsonR := Except.ok (some
            { id := none, topic_id := none, errors := none, error := some "" }) })).1.error =
      some (tPUBLISH_FAILED ++ " (" ++ toString (500 : Nat) ++ ")") ∧
    (createPost (Except.ok
        { status := 500,
          jsonR := Except.ok (some
            { id := none, topic_id := none, errors := none, error := some "" }) })).1.error ≠
      some "" := by
  constructor
  · decide
  · decide

/-- C6 (amended): for every non-200 response the error message of the failed
result is extracted in strict priority order — a non-empty `errors` array is
joined with newlines; otherwise a *non-empty* `error` string is used
verbatim; otherwise (absent or empty fields, a null body, or an unparseable
body) the generic publish-failed message carrying the HTTP status code is
returned — and a thrown network-level exception yields a publish-failed
message carrying the exception's message, or the unknown-error fallback when
that message is absent or empty. -/
theorem createPost_error_extraction (env : NetResult PostsBody) :
    (∀ r, env = Except.ok r → r.status ≠ 200 →
      (createPost env).1.success = false ∧
      (∀ b es, r.jsonR = Except.ok (some b) → b.errors = some es → es ≠ [] →
        (createPost env).1.error = some (String.intercalate "\n" es)) ∧
      (∀ b s, r.jsonR = Except.ok (some b) → (b.errors = none ∨ b.errors = some []) →
        b.error = some s → s ≠ "" →
        (createPost env).1.error = some s) ∧
      (∀ b, r.jsonR = Except.ok (some b) → (b.errors = none ∨ b.errors = some []) →
        (b.error = none ∨ b.error = some "") →
        (createPost env).1.error =
          some (tPUBLISH_FAILED ++ " (" ++ toString r.status ++ ")")) ∧
      ((r.jsonR = Except.ok none ∨ ∃ e, r.jsonR = Except.error e) →
        (createPost env).1.error =
          some (tPUBLISH_FAILED ++ " (" ++ toString r.status ++ ")"))) ∧
    (∀ e, env = Except.error e →
      (createPost env).1.success = false ∧
      (createPost env).1.error =
        some (tPUBLISH_FAILED ++ ": " ++ jsOrString e.message tUNKNOWN_ERROR)) := by
  constructor
  · rintro r rfl hs
    refine ⟨?_, ?_, ?_, ?_, ?_⟩
    · match hj : r.jsonR with
      | .error e => simp [createPost, hs, hj]
      | .ok none => simp [createPost, hs, hj]
      | .ok (some b) => simp [createPost, hs, hj]
    · rintro b es hj he hne
      have hlen : 0 < es.length := List.length_pos.mpr hne
      simp [createPost, extractPostError, hs, hj, he, hlen]
    · rintro b s hj (he | he) herr hne
      · simp [createPost, extractPostError, hs, hj, he, herr, hne]
      · simp [createPost, extractPostError, hs, hj, he, herr, hne]
    · rintro b hj (he | he) (herr | herr)
      all_goals simp [createPost, extractPostError, hs, hj, he, herr]
    · rintro (hj | ⟨e, hj⟩)
      · simp [createPost, extractPostError, hs, hj]
      · simp [createPost, extractPostError, hs, hj]
  · rintro e rfl
    exact ⟨rfl, rfl⟩

/-- Witness for C6 (amended), exercising each priority level at concrete
inputs: an errors array joined with a newline, a singular error string used
verbatim, the generic message for an empty body, and the exception fallback. -/
theorem createPost_error_extraction_witness :
    (createPost (Except.ok
        { status := 422,
          jsonR := Except.ok (some
            { id := none, topic_id := none,
              errors := some ["too short", "bad title"], error := some "ignored" }) })).1.error =
      some (String.intercalate "\n" ["too short", "bad title"]) ∧
    (createPost (Except.ok
        { status := 403,
          jsonR := Except.ok (some
            { id := none, topic_id := none, errors := none, error := some "forbidden" }) })).1.error =
      some "forbidden" ∧
    (createPost (Except.ok
        { status := 502, jsonR := Except.ok none })).1.error =
      some (tPUBLISH_FAILED ++ " (" ++ toString (502 : Nat) ++ ")") ∧
    (createPost (Except.error { message := none, asString := "Error" })).1.error =
      some (tPUBLISH_FAILED ++ ": " ++
        jsOrString none tUNKNOWN_ERROR) := by
  refine ⟨?_, ?_, ?_, ?_⟩
  · exact ((createPost_error_extraction (Except.ok
      { status := 422,
        jsonR := Except.ok (some
          { id := none, topic_id := none,
            errors := some ["too short", "bad title"], error := some "ignored" }) })).1
      _ rfl (by decide)).2.1 _ _ rfl rfl (by decide)
  · exact ((createPost_error_extraction (Except.ok
      { status := 403,
        jsonR := Except.ok (some
          { id := none, topic_id := none, errors := none, error := some "forbidden" }) })).1
      _ rfl (by decide)).2.2.1 _ _ rfl (Or.inl rfl) rfl (by decide)
  · exact ((createPost_error_extraction (Except.ok
      { status := 502, jsonR := Except.ok none })).1
      _ rfl (by decide)).2.2.2.2 (Or.inl rfl)
  · exact ((createPost_error_extraction
      (Except.error { message := none, asString := "Error" })).2
      _ rfl).2

/-! ## Claim C5: fetchCategories flattening -/

/-- One loop iteration appends exactly the category's contribution. -/
theorem flattenStep_eq (acc : List CategoryOut) (c : Category) :
    flattenStep acc c = acc ++ catEntries c := by
  unfold flattenStep catEntries
  cases h : c.subcategory_list with
  | none => simp [h]
  | some subs => simp [h]

/-- The `forEach` loop computes the concatenation of the per-category
contributions, in response order. -/
theorem flattenCategories_eq (cs : List Category) :
    flattenCategories cs = cs.flatMap catEntries := by
  suffices go : ∀ (l : List Category) (acc : List CategoryOut),
      l.foldl flattenStep acc = acc ++ l.flatMap catEntries by
    simpa [flattenCategories] using go cs []
  intro l
  induction l with
  | nil => intro acc; simp
  | cons c cs ih =>
    intro acc
    simp [List.foldl_cons, flattenStep_eq, ih]

/-- C5: on a 200 categories response, the output is the flat concatenation,
in response order, of each top-level category immediately followed by its own
subcategories, each subcategory named `parent > child`; in particular a
category with exactly two subcategories contributes exactly three entries
`[parent, subcat1, subcat2]`. -/
theorem fetchCategories_flatten (env : NetResult CategoriesBody)
    (r : HttpResponse CategoriesBody) (cs : List Category)
    (h : env = Except.ok r) (hs : r.status = 200)
    (hb : r.jsonR = Except.ok (some { category_list := some (some cs) })) :
    (fetchCategories env).1 = cs.flatMap catEntries ∧
    (∀ c : Category, ∀ s1 s2 : Subcategory, c.subcategory_list = some [s1, s2] →
      catEntries c =
        [{ id := c.id, name := c.name },
         { id := s1.id, name := c.name ++ " > " ++ s1.name },
         { id := s2.id, name := c.name ++ " > " ++ s2.name }]) := by
  constructor
  · subst h
    simp [fetchCategories, hs, hb, flattenCategories_eq]
  · intro c s1 s2 hsub
    simp [catEntries, hsub]

/-- Witness for C5 at a concrete response: one category with two
subcategories flattens to three entries in order with synthesized names. -/
theorem fetchCategories_flatten_witness :
    (fetchCategories (Except.ok
        { status := 200,
          jsonR := Except.ok (some { category_list := some (some
            [{ id := 1, name := "P",
               subcategory_list := some [{ id := 2, name := "A" }, { id := 3, name := "B" }] }]) }) })).1 =
      [{ id := 1, name := "P" }, { id := 2, name := "P > A" }, { id := 3, name := "P > B" }] := by
  have h := fetchCategories_flatten
    (Except.ok
      { status := 200,
        jsonR := Except.ok (some { category_list := some (some
          [{ id := 1, name := "P",
             subcategory_list := some [{ id := 2, name := "A" }, { id := 3, name := "B" }] }]) }) })
    { status := 200,
      jsonR := Except.ok (some { category_list := some (some
        [{ id := 1, name := "P",
           subcategory_list := some [{ id := 2, name := "A" }, { id := 3, name := "B" }] }]) }) }
    [{ id := 1, name := "P",
       subcategory_list := some [{ id := 2, name := "A" }, { id := 3, name := "B" }] }]
    rfl rfl rfl
  rw [h.1]
  rw [List.flatMap_cons, List.flatMap_nil,
    h.2 _ { id := 2, name := "A" } { id := 3, name := "B" } rfl]
  decide

/-! ## Claim C4: fetchTags merge — deduplication and max counts -/

/-- Appending a fresh key behaves like an update at that key. -/
theorem tagMapGet_append_single (m : List (String × Int)) (k k' : String) (v : Int)
    (hget : tagMapGet m k = none) :
    tagMapGet (m ++ [(k, v)]) k' = if k' = k then some v else tagMapGet m k' := by
  induction m with
  | nil => simp [tagMapGet]
  | cons p m ih =>
    obtain ⟨k0, v0⟩ := p
    unfold tagMapGet at hget
    by_cases h0 : k = k0
    · rw [if_pos h0] at hget
      cases hget
    · rw [if_neg h0] at hget
      show tagMapGet ((k0, v0) :: (m ++ [(k, v)])) k' = _
      unfold tagMapGet
      by_cases h1 : k' = k0
      · rw [if_pos h1, if_pos h1, if_neg (by rw [h1]; exact fun h => h0 h.symm)]
      · rw [if_neg h1, if_neg h1, ih hget]

/-- In-place replacement at key `k` does not change lookups at other keys. -/
theorem tagMapGet_mapReplace_ne (m : List (String × Int)) (k k' : String) (v : Int)
    (hne : k' ≠ k) :
    tagMapGet (m.map (fun p => if p.1 = k then (k, v) else p)) k' = tagMapGet m k' := by
  induction m with
  | nil => rfl
  | cons p m ih =>
    obtain ⟨k0, v0⟩ := p
    by_cases h0 : k0 = k
    · simp only [List.map_cons, if_pos h0]
      show (if k' = k then some v else _) = _
      rw [if_neg hne, ih]
      show _ = (if k' = k0 then some v0 else tagMapGet m k')
      rw [if_neg (h0 ▸ hne)]
    · simp only [List.map_cons, if_neg h0]
      show (if k' = k0 then some v0 else _) = (if k' = k0 then some v0 else _)
      by_cases h1 : k' = k0
      · rw [if_pos h1, if_pos h1]
      · rw [if_neg h1, if_neg h1, ih]

/-- In-place replacement at an existing key `k` makes lookups at `k` return
the new value. -/
theorem tagMapGet_mapReplace (m : List (String × Int)) (k k' : String) (v : Int)
    (hget : (tagMapGet m k).isSome = true) :
    tagMapGet (m.map (fun p => if p.1 = k then (k, v) else p)) k' =
      if k' = k then some v else tagMapGet m k' := by
  by_cases hk : k' = k
  · subst hk
    rw [if_pos rfl]
    induction m with
    | nil => cases hget
    | cons p m ih =>
      obtain ⟨k0, v0⟩ := p
      by_cases h0 : k0 = k'
      · simp only [List.map_cons, if_pos h0]
        show (if k' = k' then some v else _) = _
        rw [if_pos rfl]
      · simp only [List.map_cons, if_neg h0]
        show (if k' = k0 then some v0 else _) = _
        rw [if_neg (fun h => h0 h.symm)]
        apply ih
        unfold tagMapGet at hget
        rwa [if_neg (fun h => h0 h.symm)] at hget
  · rw [if_neg hk]
    exact tagMapGet_mapReplace_ne m k k' v hk

/-- The `Map.set` semantics: lookup after `tagMapSet` sees the new binding at the
written key and is unchanged elsewhere. -/
theorem tagMapGet_set (m : List (String × Int)) (k k' : String) (v : Int) :
    tagMapGet (tagMapSet m k v) k' = if k' = k then some v else tagMapGet m k' := by
  unfold tagMapSet
  cases hget : tagMapGet m k with
  | none => exact tagMapGet_append_single m k k' v hget
  | some c => exact tagMapGet_mapReplace m k k' v (by rw [hget]; rfl)

/-- In-place replacement does not change the key sequence. -/
theorem names_mapReplace (m : List (String × Int)) (k : String) (v : Int) :
    (m.map (fun p => if p.1 = k then (k, v) else p)).map Prod.fst = m.map Prod.fst := by
  induction m with
  | nil => rfl
  | cons p m ih =>
    simp only [List.map_cons, ih]
    by_cases h : p.1 = k
    · rw [if_pos h]
      simp [h]
    · rw [if_neg h]

/-- A key is absent from the map exactly when lookup returns `none`. -/
theorem tagMapGet_eq_none_iff (m : List (String × Int)) (k : String) :
    tagMapGet m k = none ↔ k ∉ m.map Prod.fst := by
  induction m with
  | nil => simp [tagMapGet]
  | cons p m ih =>
    obtain ⟨k0, v0⟩ := p
    unfold tagMapGet
    by_cases h : k = k0
    · simp [h]
    · simp [h, ih]

/-- The update `tagMapSet` keeps the key sequence duplicate-free. -/
theorem nodup_names_tagMapSet (m : List (String × Int)) (k : String) (v : Int)
    (h : (m.map Prod.fst).Nodup) :
    ((tagMapSet m k v).map Prod.fst).Nodup := by
  unfold tagMapSet
  cases hget : tagMapGet m k with
  | none =>
    have hk : k ∉ m.map Prod.fst := (tagMapGet_eq_none_iff m k).mp hget
    simp [List.nodup_append, h, hk]
  | some c => rw [names_mapReplace]; exact h

/-- The group-tag merge step is a `Map.set` of the merged count. -/
theorem addGroupTag_eq_set (m : List (String × Int)) (t : TagIn) :
    addGroupTag m t = tagMapSet m t.name
      (match tagMapGet m t.name with
       | some c => max c (jsOrZero t.count)
       | none => jsOrZero t.count) := by
  unfold addGroupTag tagMapSet
  cases hget : tagMapGet m t.name <;> simp [hget]

/-- The top-level loop keeps the key sequence duplicate-free. -/
theorem nodup_names_addTopLevelTags (tl : List TagIn) :
    ∀ m : List (String × Int), (m.map Prod.fst).Nodup →
      ((addTopLevelTags m tl).map Prod.fst).Nodup := by
  induction tl with
  | nil => intro m h; exact h
  | cons t ts ih =>
    intro m h
    exact ih _ (nodup_names_tagMapSet m t.name (jsOrZero t.count) h)

/-- The group loops keep the key sequence duplicate-free. -/
theorem nodup_names_addTagGroups (groups : List TagGroup) :
    ∀ m : List (String × Int), (m.map Prod.fst).Nodup →
      ((addTagGroups m groups).map Prod.fst).Nodup := by
  induction groups with
  | nil => intro m h; exact h
  | cons g gs ih =>
    intro m h
    refine ih _ ?_
    unfold addGroup
    cases hg : g.tags with
    | none => exact h
    | some ts =>
      clear hg
      induction ts generalizing m with
      | nil => exact h
      | cons t ts iht =>
        refine iht _ ?_
        rw [addGroupTag_eq_set]
        exact nodup_names_tagMapSet _ _ _ h

/-- The merged `allTags` map never holds two entries with the same name. -/
theorem nodup_names_mergeTags (tl : List TagIn) (groups : List TagGroup) :
    ((mergeTags tl groups).map Prod.fst).Nodup :=
  nodup_names_addTagGroups groups _
    (nodup_names_addTopLevelTags tl [] (by simp))

/-- The top-level loop leaves a name untouched when no top-level tag has it. -/
theorem tagMapGet_addTopLevelTags_skip (tl : List TagIn) :
    ∀ (m : List (String × Int)) (name : String),
      tl.filter (fun t => t.name == name) = [] →
      tagMapGet (addTopLevelTags m tl) name = tagMapGet m name := by
  induction tl with
  | nil => intro m name _; rfl
  | cons t ts ih =>
    intro m name hf
    rw [List.filter_cons] at hf
    cases hbeq : (t.name == name) with
    | true => rw [hbeq] at hf; simp at hf
    | false =>
      rw [hbeq] at hf
      simp only [Bool.false_eq_true, if_neg] at hf
      show tagMapGet (addTopLevelTags (addTopTag m t) ts) name = _
      rw [ih _ _ hf]
      unfold addTopTag
      rw [tagMapGet_set]
      rw [if_neg (fun h => by simp [h] at hbeq)]

/-- A name occurring exactly once in the top-level tag list ends up in the map
with that tag's count. -/
theorem tagMapGet_addTopLevelTags_once (tl : List TagIn) :
    ∀ (m : List (String × Int)) (name : String) (t1 : TagIn),
      tl.filter (fun t => t.name == name) = [t1] →
      tagMapGet (addTopLevelTags m tl) name = some (jsOrZero t1.count) := by
  induction tl with
  | nil => intro m name t1 hf; simp at hf
  | cons t ts ih =>
    intro m name t1 hf
    rw [List.filter_cons] at hf
    cases hbeq : (t.name == name) with
    | true =>
      rw [hbeq] at hf
      simp only [if_pos] at hf
      have ht1 : t = t1 := by
        have := List.cons_eq_cons.mp hf
        exact this.1
      have hrest : ts.filter (fun t => t.name == name) = [] :=
        (List.cons_eq_cons.mp hf).2
      show tagMapGet (addTopLevelTags (addTopTag m t) ts) name = _
      rw [tagMapGet_addTopLevelTags_skip ts _ _ hrest]
      unfold addTopTag
      rw [tagMapGet_set, if_pos (eq_of_beq hbeq).symm]
      rw [ht1]
    | false =>
      rw [hbeq] at hf
      simp only [Bool.false_eq_true, if_neg] at hf
      exact ih _ _ _ hf

/-- The group loop leaves a name untouched when no group tag has it. -/
theorem tagMapGet_foldlGroup_skip (ts : List TagIn) :
    ∀ (m : List (String × Int)) (name : String),
      ts.filter (fun t => t.name == name) = [] →
      tagMapGet (ts.foldl addGroupTag m) name = tagMapGet m name := by
  induction ts with
  | nil => intro m name _; rfl
  | cons t ts ih =>
    intro m name hf
    rw [List.filter_cons] at hf
    cases hbeq : (t.name == name) with
    | true => rw [hbeq] at hf; simp at hf
    | false =>
      rw [hbeq] at hf
      simp only [Bool.false_eq_true, if_neg] at hf
      rw [List.foldl_cons, ih _ _ hf, addGroupTag_eq_set, tagMapGet_set]
      rw [if_neg (fun h => by simp [h] at hbeq)]

/-- A name occurring exactly once among the group tags is merged with `max`
against whatever count the map already holds for it. -/
theorem tagMapGet_foldlGroup_once (ts : List TagIn) :
    ∀ (m : List (String × Int)) (name : String) (t2 : TagIn),
      ts.filter (fun t => t.name == name) = [t2] →
      tagMapGet (ts.foldl addGroupTag m) name =
        some (match tagMapGet m name with
              | some c => max c (jsOrZero t2.count)
              | none => jsOrZero t2.count) := by
  induction ts with
  | nil => intro m name t2 hf; simp at hf
  | cons t ts ih =>
    intro m name t2 hf
    rw [List.filter_cons] at hf
    cases hbeq : (t.name == name) with
    | true =>
      rw [hbeq] at hf
      simp only [if_pos] at hf
      have ht2 : t = t2 := (List.cons_eq_cons.mp hf).1
      have hrest : ts.filter (fun t => t.name == name) = [] :=
        (List.cons_eq_cons.mp hf).2
      have hname : name = t.name := (eq_of_beq hbeq).symm
      rw [List.foldl_cons, tagMapGet_foldlGroup_skip ts _ _ hrest,
        addGroupTag_eq_set, tagMapGet_set, if_pos hname, hname, ht2]
    | false =>
      rw [hbeq] at hf
      simp only [Bool.false_eq_true, if_neg] at hf
      rw [List.foldl_cons, ih _ _ _ hf]
      rw [addGroupTag_eq_set, tagMapGet_set,
        if_neg (fun h => by simp [h] at hbeq)]

/-- Processing the groups is processing their concatenated tag lists. -/
theorem addTagGroups_eq_flat (groups : List TagGroup) :
    ∀ m : List (String × Int),
      addTagGroups m groups =
        (groups.flatMap (fun g => g.tags.getD [])).foldl addGroupTag m := by
  induction groups with
  | nil => intro m; rfl
  | cons g gs ih =>
    intro m
    show addTagGroups (addGroup m g) gs = _
    rw [ih, List.flatMap_cons, List.foldl_append]
    congr 1
    unfold addGroup
    cases hg : g.tags with
    | none => rfl
    | some ts => rfl

/-- A name appearing exactly once in each source is merged to the maximum of
its two counts (never their sum). -/
theorem tagMapGet_mergeTags_both (tl : List TagIn) (groups : List TagGroup)
    (name : String) (t1 t2 : TagIn)
    (h1 : tl.filter (fun t => t.name == name) = [t1])
    (h2 : (groups.flatMap (fun g => g.tags.getD [])).filter
        (fun t => t.name == name) = [t2]) :
    tagMapGet (mergeTags tl groups) name =
      some (max (jsOrZero t1.count) (jsOrZero t2.count)) := by
  unfold mergeTags
  rw [addTagGroups_eq_flat, tagMapGet_foldlGroup_once _ _ _ _ h2,
    tagMapGet_addTopLevelTags_once _ _ _ _ h1]

/-- C4: on a 200 tags response with a truthy `tags` field, the `fetchTags`
output contains at most one entry per tag name (the merged map is
duplicate-free by name and the stable sort only permutes it), and for a name
appearing exactly once in the top-level list and exactly once among the tags
nested in `extras.tag_groups[].tags`, the merged usage count used for sorting
is the maximum of the two counts, never their sum. -/
theorem fetchTags_merge_max (env : FetchTagsEnv) (r : HttpResponse TagsBody)
    (b : TagsBody) (tl : List TagIn)
    (h : env.tagsResp = Except.ok r) (hs : r.status = 200)
    (hb : r.jsonR = Except.ok (some b)) (ht : b.tags = some tl) :
    ((fetchTags env).1.map (fun t => t.name)).Nodup ∧
    (∀ (name : String) (t1 t2 : TagIn),
      tl.filter (fun t => t.name == name) = [t1] →
      ((extrasGroups b).flatMap (fun g => g.tags.getD [])).filter
          (fun t => t.name == name) = [t2] →
      tagMapGet (mergeTags tl (extrasGroups b)) name =
        some (max (jsOrZero t1.count) (jsOrZero t2.count))) := by
  constructor
  · have hout : (fetchTags env).1 =
        sortAndLabel (mergeTags tl (extrasGroups b)) (checkCanCreateTags env.siteResp).1 := by
      unfold fetchTags
      rw [h]
      simp [hs, hb, ht]
    rw [hout]
    unfold sortAndLabel
    rw [List.map_map]
    have hperm :
        ((mergeTags tl (extrasGroups b)).mergeSort (fun a b => decide (b.2 ≤ a.2))).map
            Prod.fst |>.Perm ((mergeTags tl (extrasGroups b)).map Prod.fst) :=
      (List.mergeSort_perm _ _).map Prod.fst
    have hmapeq :
        ((mergeTags tl (extrasGroups b)).mergeSort (fun a b => decide (b.2 ≤ a.2))).map
            ((fun t : TagOut => t.name) ∘ fun p => { name := p.1, canCreate := (checkCanCreateTags env.siteResp).1 }) =
        ((mergeTags tl (extrasGroups b)).mergeSort (fun a b => decide (b.2 ≤ a.2))).map
            Prod.fst := by
      apply List.map_congr_left
      intro a _
      rfl
    rw [hmapeq]
    exact hperm.nodup_iff.mpr (nodup_names_mergeTags tl (extrasGroups b))
  · intro name t1 t2 h1 h2
    exact tagMapGet_mergeTags_both tl (extrasGroups b) name t1 t2 h1 h2

/-- Witness for C4 at the spec's concrete example: top-level `{a, 5}` and
group tag `{a, 10}` merge to a single `"a"` entry with count `10 = max 5 10`
(not the sum `15`). -/
theorem fetchTags_merge_max_witness :
    ((fetchTags
        { tagsResp := Except.ok
            { status := 200,
              jsonR := Except.ok (some
                { tags := some [{ name := "a", count := some 5 }],
                  extras := some (some
                    [{ tags := some [{ name := "a", count := some 10 }] }]) }) },
          siteResp := Except.ok
            { status := 200,
              jsonR := Except.ok (some { can_create_tag := some true }) } }).1.map
        (fun t => t.name)).Nodup ∧
    tagMapGet
        (mergeTags [{ name := "a", count := some 5 }]
          (extrasGroups
            { tags := some [{ name := "a", count := some 5 }],
              extras := some (some
                [{ tags := some [{ name := "a", count := some 10 }] }]) }))
        "a" =
      some (max (jsOrZero (some 5)) (jsOrZero (some 10))) := by
  have h := fetchTags_merge_max
    { tagsResp := Except.ok
        { status := 200,
          jsonR := Except.ok (some
            { tags := some [{ name := "a", count := some 5 }],
              extras := some (some
                [{ tags := some [{ name := "a", count := some 10 }] }]) }) },
      siteResp := Except.ok
        { status := 200,
          jsonR := Except.ok (some { can_create_tag := some true }) } }
    { status := 200,
      jsonR := Except.ok (some
        { tags := some [{ name := "a", count := some 5 }],
          extras := some (some
            [{ tags := some [{ name := "a", count := some 10 }] }]) }) }
    { tags := some [{ name := "a", count := some 5 }],
      extras := some (some [{ tags := some [{ name := "a", count := some 10 }] }]) }
    [{ name := "a", count := some 5 }]
    rfl rfl rfl rfl
  exact ⟨h.1, h.2 "a" { name := "a", count := some 5 } { name := "a", count := some 10 }
    (by decide) (by decide)⟩

/-! ## Claim C10: fetchTopicInfo error paths -/

/-- C10: on every non-200 response `fetchTopicInfo` returns the `{tags: []}`
sentinel with no `categoryId` and raises no notification; and whenever a
notification is raised, an exception was thrown (either by `requestUrl` itself
or by the `response.json` getter of a 200 response) and the same sentinel is
returned. -/
theorem fetchTopicInfo_errorPaths (env : NetResult TopicBody) :
    (∀ r, env = Except.ok r → r.status ≠ 200 →
      fetchTopicInfo env =
        ({ tags := [], categoryId := none }, [Event.call NetCall.getTopic])) ∧
    (∀ m, Event.notify m ∈ (fetchTopicInfo env).2 →
      (fetchTopicInfo env).1 = { tags := [], categoryId := none } ∧
      ((∃ e, env = Except.error e) ∨
        ∃ r e, env = Except.ok r ∧ r.status = 200 ∧ r.jsonR = Except.error e)) := by
  constructor
  · rintro r rfl hs
    simp [fetchTopicInfo, hs]
  · intro m hm
    match henv : env with
    | .error e =>
      subst henv
      exact ⟨rfl, Or.inl ⟨e, rfl⟩⟩
    | .ok r =>
      subst henv
      by_cases hs : r.status = 200
      · match hj : r.jsonR with
        | .error e =>
          refine ⟨by simp [fetchTopicInfo, hs, hj], Or.inr ⟨r, e, rfl, hs, hj⟩⟩
        | .ok none => simp [fetchTopicInfo, hs, hj] at hm
        | .ok (some b) => simp [fetchTopicInfo, hs, hj] at hm
      · simp [fetchTopicInfo, hs] at hm

/-- Witness for C10: a concrete 404 response yields the sentinel and no
notification, and a concrete thrown exception notifies with the sentinel. -/
theorem fetchTopicInfo_errorPaths_witness :
    fetchTopicInfo (Except.ok { status := 404, jsonR := Except.ok none }) =
      ({ tags := [], categoryId := none }, [Event.call NetCall.getTopic]) ∧
    (fetchTopicInfo (Except.error { message := some "boom", asString := "Error: boom" })).1 =
      { tags := [], categoryId := none } :=
  ⟨(fetchTopicInfo_errorPaths (Except.ok { status := 404, jsonR := Except.ok none })).1
      { status := 404, jsonR := Except.ok none } rfl (by decide),
   ((fetchTopicInfo_errorPaths
        (Except.error { message := some "boom", asString := "Error: boom" })).2
      ("Exception while fetching topic info: Error: boom") (by decide)).1⟩

end Discourse
